import Mathlib

/-!
Shallow embedding of the todo-list core: the in-memory API service
(user registration, password checking, session lifecycle, content store)
found in src/test/apiService.test.mjs (the module holding the
InMemoryApiService draft, lines 975-2131), and the task composition model
of src/unnamed/part_000.  JavaScript strings are embedded as List Char,
JS timestamps as Int, plain objects used as string-keyed maps as
association lists in property order.  A promise that has settled is an
Outcome; a method call that can throw before any promise exists is a
CallResult.
-/

namespace TodoSpec

/-- Settled error values of the repository.  The error taxonomy of the
errors module (src/unnamed/part_008): HttpStatusException with its
subclasses fixing the status code (NotFoundException 404,
AuthenticationRequiredException 401, AccessForbiddenException 403,
BadRequestException 400), InvalidParameterException with
parameterName/parameterValue/message/cause, plus the native JavaScript
errors the code can raise (TypeError, ReferenceError, SyntaxError as a
cause). -/
inductive JsErrorCause where
  | synError (message : String)
  | typeErrorCause (message : String)
deriving DecidableEq

/-- Exception values delivered by the core operations. The httpStatus
constructor is the plain HttpStatusException whose statusCode defaults
to 500 when the constructor receives only a message. -/
inductive JsException where
  | httpStatus (message : Option String) (statusCode : Nat)
  | notFound (message : Option String)
  | authenticationRequired (message : Option String)
  | accessForbidden (message : Option String)
  | badRequest (message : Option String)
  | invalidParameter (parameterName : String) (parameterValue : Option Int)
      (message : Option String) (cause : Option JsErrorCause)
  | typeError (message : String)
  | referenceError (message : String)
deriving DecidableEq

/-- The settled state of a promise returned by an operation. -/
inductive Outcome (α : Type) where
  | resolved (value : α)
  | rejected (error : JsException)
deriving DecidableEq

/-- Result of calling a method: either it throws synchronously before a
promise exists, or it returns a promise that settles with an outcome. -/
inductive CallResult (α : Type) where
  | thrown (error : JsException)
  | promised (outcome : Outcome α)
deriving DecidableEq

/-- Lookup in a JS plain object used as a map (association list in
property insertion order). -/
def recLookup {α : Type} (r : List (String × α)) (key : String) : Option α :=
  match r with
  | [] => none
  | (k, v) :: rest => if k = key then some v else recLookup rest key

/-- The JS in operator on a plain object: the key is an own property. -/
def recHas {α : Type} (r : List (String × α)) (key : String) : Bool :=
  (recLookup r key).isSome

/-- Property assignment on a JS plain object: replace in place when the
key exists, append the new key otherwise. -/
def recSet {α : Type} (r : List (String × α)) (key : String) (value : α) :
    List (String × α) :=
  match r with
  | [] => [(key, value)]
  | (k, v) :: rest =>
      if k = key then (k, value) :: rest else (k, v) :: recSet rest key value

/-! ## Password policy validator

The regular expressions at src/test/apiService.test.mjs lines 1493-1513,
over the ASCII fragment of the Unicode classes they use:
HAS_LOWER_CASE_LETTER_REGEX matches a Ll character, HAS_UPPER_CASE_LETTER_REGEX
a Lu character, HAS_DIGIT_REGEX an N character, HAS_PUNCTUATION_REGEX a P
character, and VALID_PASSWORD_REGEX anchors a word character, then
optionally a run of word characters or spaces ending in a word character. -/

/-- ASCII fragment of the Unicode class Ll used by HAS_LOWER_CASE_LETTER_REGEX. -/
def isLowerCaseLetter (c : Char) : Bool :=
  97 ≤ c.val && c.val ≤ 122

/-- ASCII fragment of the Unicode class Lu used by HAS_UPPER_CASE_LETTER_REGEX. -/
def isUpperCaseLetter (c : Char) : Bool :=
  65 ≤ c.val && c.val ≤ 90

/-- ASCII fragment of the Unicode class N used by HAS_DIGIT_REGEX. -/
def isDigitChar (c : Char) : Bool :=
  48 ≤ c.val && c.val ≤ 57

/-- ASCII fragment of the Unicode class P used by HAS_PUNCTUATION_REGEX:
the characters with codes for the punctuation set of ASCII. -/
def isPunctuationChar (c : Char) : Bool :=
  c.val ∈ ([33, 34, 35, 37, 38, 39, 40, 41, 42, 44, 45, 46, 47,
            58, 59, 63, 64, 91, 92, 93, 95, 123, 125] : List UInt32)

/-- A character of the bracket class of VALID_PASSWORD_REGEX: letter,
number or punctuation. -/
def isWordChar (c : Char) : Bool :=
  isLowerCaseLetter c || isUpperCaseLetter c || isDigitChar c || isPunctuationChar c

/-- Inner part of VALID_PASSWORD_REGEX after the first character: a run of
word characters or spaces whose final character is a word character. -/
def shapeTail : List Char → Bool
  | [] => false
  | [c] => isWordChar c
  | c :: rest => (isWordChar c || c = ' ') && shapeTail rest

/-- VALID_PASSWORD_REGEX as a predicate: one word character, optionally
followed by word characters or spaces ending in a word character. -/
def validPasswordShape : List Char → Bool
  | [] => false
  | [c] => isWordChar c
  | c :: rest => isWordChar c && shapeTail rest

/-- The test of HAS_LOWER_CASE_LETTER_REGEX on a string. -/
def hasLowerCaseLetter (s : List Char) : Bool := s.any isLowerCaseLetter

/-- The test of HAS_UPPER_CASE_LETTER_REGEX on a string. -/
def hasUpperCaseLetter (s : List Char) : Bool := s.any isUpperCaseLetter

/-- The test of HAS_DIGIT_REGEX on a string. -/
def hasDigitChar (s : List Char) : Bool := s.any isDigitChar

/-- The test of HAS_PUNCTUATION_REGEX on a string. -/
def hasPunctuationChar (s : List Char) : Bool := s.any isPunctuationChar

/-- InMemoryApiService.checkSecret (src/test/apiService.test.mjs lines
1895-1922) with its default message argument.  The method returns a new
promise; the executor rejects with an InvalidParameterException carrying
the second argument undefined and a SyntaxError cause, testing the shape
regex first and then the classes in the order lower case, upper case,
digit, punctuation, and resolves with the original secret otherwise.
The secret argument is already a string here, so the typeof guard of the
source passes. -/
def checkSecret (secret : List Char) : Outcome (List Char) :=
  if validPasswordShape secret then
    if !(secret.any isLowerCaseLetter) then
      Outcome.rejected (JsException.invalidParameter "secret" none (some "Invalid secret")
        (some (JsErrorCause.synError "Missing lower case letter")))
    else if !(secret.any isUpperCaseLetter) then
      Outcome.rejected (JsException.invalidParameter "secret" none (some "Invalid secret")
        (some (JsErrorCause.synError "Missing upper case letter")))
    else if !(secret.any isDigitChar) then
      Outcome.rejected (JsException.invalidParameter "secret" none (some "Invalid secret")
        (some (JsErrorCause.synError "Missing digit")))
    else if !(secret.any isPunctuationChar) then
      Outcome.rejected (JsException.invalidParameter "secret" none (some "Invalid secret")
        (some (JsErrorCause.synError "Missing punctuation character")))
    else
      Outcome.resolved secret
  else
    Outcome.rejected (JsException.invalidParameter "secret" none (some "Invalid secret")
      (some (JsErrorCause.synError "Secret must start and end letter, number, or punctuation character, and may contain single spaces between the first and last character.")))

/-- The first character class missing from the secret, in the priority
order of the specification: lower case, then upper case, then digit,
then punctuation. -/
def firstMissingClassMessage (s : List Char) : String :=
  if !(hasLowerCaseLetter s) then "Missing lower case letter"
  else if !(hasUpperCaseLetter s) then "Missing upper case letter"
  else if !(hasDigitChar s) then "Missing digit"
  else "Missing punctuation character"

/-! ## The in-memory API service state

The private fields of InMemoryApiService: a content map from user id to
the array of content entries, a user map, and a session map whose stored
value can be the null reservation written by createSession. -/

/-- A stored content entry, an id paired with an opaque payload. -/
structure ContentEntry where
  id : String
  content : String
deriving DecidableEq

/-- A user record as built by createUser: user name, hashed secret, salt,
opaque user info payload, optional absolute expiry, email flag. -/
structure UserData where
  userName : String
  hashedSecret : String
  salt : String
  userInfo : String
  expires : Option Int
  emailVerified : Bool
deriving DecidableEq

/-- A session record as built by createSession: owner, session id,
creation time, optional absolute expiry, hashed session secret. -/
structure SessionData where
  userId : String
  sessionId : String
  created : Int
  expires : Option Int
  hashedSecret : String
deriving DecidableEq

/-- The mutable state of an InMemoryApiService instance.  A session slot
holds none exactly when the null reservation of createSession is stored
under the key. -/
structure ApiState where
  content : List (String × List ContentEntry)
  users : List (String × UserData)
  sessions : List (String × Option SessionData)
deriving DecidableEq

/-- JS array index lookup for the in operator and bracket access used on
a content array: the key must be the canonical decimal string of an
index below the length. -/
def arrayIndex (entries : List ContentEntry) (key : String) : Option ContentEntry :=
  (List.range entries.length).findSome?
    (fun j => if Nat.repr j = key then entries[j]? else none)

/-! ## Service operations, embedded statement by statement from
src/test/apiService.test.mjs -/

/-- InMemoryApiService.validPassword (lines 1607-1621).  Its first
statement evaluates this.#users.find, but #users is a plain object
literal which has no find method, so every call throws a TypeError
synchronously, before any promise is created; the NotFoundException and
AccessForbiddenException branches below it are unreachable. -/
def validPassword (st : ApiState) (user secret : String) : CallResult String :=
  CallResult.thrown (JsException.typeError "this.users.find is not a function")

/-- InMemoryApiService.getAvailableContent (lines 1638-1663).  The guard
is written !userId in this.#users, which parses as (!userId) in
this.#users: the negated string is the boolean false (or true for the
empty string), so the in test looks up the property key false or true.
When that key is absent the code reads this.#users[userId].expires;
for an unregistered userId that is a property read on undefined and the
executor throws a TypeError, which the Promise constructor converts to a
rejection.  A session slot holding the null reservation likewise throws
a TypeError on its expires read.  The owner mismatch branch rejects a
plain HttpStatusException whose status code defaults to 500. -/
def getAvailableContent (st : ApiState) (sessionId userId contentId : String)
    (now : Int) : Outcome String :=
  let bangKey : String := if userId = "" then "true" else "false"
  if recHas st.users bangKey then
    Outcome.rejected (JsException.accessForbidden (some "User cannot access the content"))
  else
    match recLookup st.users userId with
    | none =>
        Outcome.rejected (JsException.typeError "Cannot read properties of undefined")
    | some user =>
        if user.expires.isSome && user.expires.getD 0 ≤ now then
          Outcome.rejected (JsException.accessForbidden (some "User cannot access the content"))
        else
          match recLookup st.sessions sessionId with
          | none =>
              Outcome.rejected
                (JsException.authenticationRequired (some "User authentication required"))
          | some none =>
              Outcome.rejected (JsException.typeError "Cannot read properties of null")
          | some (some session) =>
              if session.expires.isSome && session.expires.getD 0 ≤ now then
                Outcome.rejected
                  (JsException.authenticationRequired (some "User authentication required"))
              else if session.userId = userId then
                match recLookup st.content userId with
                | none =>
                    Outcome.rejected (JsException.notFound (some "The resource does not exists"))
                | some entries =>
                    match arrayIndex entries contentId with
                    | some entry => Outcome.resolved entry.content
                    | none =>
                        Outcome.rejected
                          (JsException.notFound (some "The resource does not exists"))
              else
                Outcome.rejected (JsException.httpStatus (some "Bad request") 500)

/-- InMemoryApiService._createId (lines 2042-2056).  The method body uses
the identifier idCollection, but the declared signature has no
parameter, so the identifier is unbound; the resulting ReferenceError is
caught by the try block and the promise rejects with it on every call.
The argument the callers pass is ignored by the method. -/
def _createId (idCollectionArg : List String) : Outcome String :=
  Outcome.rejected (JsException.referenceError "idCollection is not defined")

/-- InMemoryApiService.createContentId (lines 2063-2065): delegates to
_createId with the own property names of the content map. -/
def createContentId (st : ApiState) : Outcome String :=
  _createId (st.content.map Prod.fst)

/-- InMemoryApiService.createSession (lines 1771-1792).  For a registered
user the executor stores the value returned by this._createId as a
property key: that value is a promise, so the key is its string
coercion, the text between brackets object Promise; the stored value is
the null reservation.  The next statement assigns the undeclared
identifier secret, which in strict module code throws a ReferenceError;
the Promise constructor turns it into a rejection, and the null
reservation is left in the session map. -/
def createSession (st : ApiState) (userId : String) (now : Int) :
    ApiState × Outcome SessionData :=
  if recHas st.users userId then
    ({ st with sessions := recSet st.sessions "[object Promise]" none },
      Outcome.rejected (JsException.referenceError "secret is not defined"))
  else
    (st, Outcome.rejected (JsException.accessForbidden (some "User access forbidden!")))

/-- InMemoryApiService.updateSession (lines 1802-1826).  The body is
return Promise(executor) without the new keyword; the Promise
constructor cannot be invoked as a function, so every call throws a
TypeError synchronously and the session map is never touched.  The
NotFoundException, BadRequestException, AuthenticationRequiredException
and refresh branches inside the executor are unreachable. -/
def updateSession (st : ApiState) (sessionId userId : String)
    (sessionDetail : Option String) (now : Int) : ApiState × CallResult SessionData :=
  (st, CallResult.thrown
    (JsException.typeError "Promise constructor cannot be invoked without new"))

/-- InMemoryApiService.closeSession (lines 1835-1856).  The method is
async, so thrown errors surface as rejections.  A closeTime in the
future rejects with an InvalidParameterException; otherwise the method
calls this.checkSessionId, a method that does not exist anywhere in the
class, so the call rejects with a TypeError and the session map is never
modified. -/
def closeSession (st : ApiState) (sessionId : String) (closeTime : Option Int)
    (now : Int) : ApiState × Outcome Unit :=
  match closeTime with
  | some t =>
      if t > now then
        (st, Outcome.rejected (JsException.invalidParameter "closeTime" (some t)
          (some "Close time in future") none))
      else
        (st, Outcome.rejected (JsException.typeError "this.checkSessionId is not a function"))
  | none =>
      (st, Outcome.rejected (JsException.typeError "this.checkSessionId is not a function"))

/-! ## Task composition model (src/unnamed/part_000)

Tasks are read-only views: every done and partial getter recomputes from
the current members on access.  A done getter can yield the JS values
true, false or undefined, embedded as a three valued type.  Member
arrays hold the task objects the caller supplied. -/

/-- The JS value of a done getter: true, false, or undefined. -/
inductive TriState where
  | jsTrue
  | jsFalse
  | jsUndefined
deriving DecidableEq

/-- JS truthiness of a done value: only true is truthy. -/
def triTruthy : TriState → Bool
  | TriState.jsTrue => true
  | TriState.jsFalse => false
  | TriState.jsUndefined => false

/-- Strict boolean as a done value. -/
def triOfBool (b : Bool) : TriState :=
  if b then TriState.jsTrue else TriState.jsFalse

/-- The completion predicates occurring in the source: the default of
createLinkedTask (every member done) and the predicate passed by
createCompleteAnyTask (some member done). -/
inductive CompletionRule where
  | everyDone
  | someDone
deriving DecidableEq

/-- A task object: a simple leaf of createSimpleTask, a linked task of
createLinkedTask with its completion predicate, or the blockable linked
task of createCompleteAllStepsBlockingTask with its completedBy and
blockedBy member arrays. -/
inductive Task where
  | simple (name : String) (done : Bool)
  | linked (name : String) (completedBy : List Task) (rule : CompletionRule)
  | blockable (name : String) (completedBy : List Task) (blockedBy : List Task)

mutual

/-- The done getter.  For a simple task the stored boolean.  For a linked
task the completion predicate applied to the current members, with each
member contributing the truthiness of its own done getter.  For the
blockable task the getter first tests this.prohibited, but the object
defines no prohibited property (its getter is named blocked), so the
test reads undefined, is always falsy, and the blockedBy members are
never consulted: the getter counts the done members of completedBy and
yields true when all are done and undefined otherwise. -/
def Task.doneValue : Task → TriState
  | Task.simple _ d => triOfBool d
  | Task.linked _ ms r =>
      match r with
      | CompletionRule.everyDone => triOfBool (tasksAllDone ms)
      | CompletionRule.someDone => triOfBool (tasksSomeDone ms)
  | Task.blockable _ cs _ =>
      if tasksDoneCount cs = cs.length then TriState.jsTrue else TriState.jsUndefined

/-- members.every of the truthiness of the member done getters. -/
def tasksAllDone : List Task → Bool
  | [] => true
  | t :: ts => triTruthy (Task.doneValue t) && tasksAllDone ts

/-- members.some of the truthiness of the member done getters. -/
def tasksSomeDone : List Task → Bool
  | [] => false
  | t :: ts => triTruthy (Task.doneValue t) || tasksSomeDone ts

/-- The reduce of the blockable done getter: the number of members whose
done getter is truthy. -/
def tasksDoneCount : List Task → Nat
  | [] => 0
  | t :: ts => (if triTruthy (Task.doneValue t) then 1 else 0) + tasksDoneCount ts

end

/-- The partial getter.  A simple task has no such property, so the read
yields undefined (none).  A linked task computes some member done and
not this.done.  The blockable task computes this.done strictly equal to
undefined. -/
def Task.partialValue : Task → Option Bool
  | Task.simple _ _ => none
  | Task.linked n ms r =>
      some (tasksSomeDone ms && !(triTruthy (Task.doneValue (Task.linked n ms r))))
  | Task.blockable n cs bs =>
      some (Task.doneValue (Task.blockable n cs bs) == TriState.jsUndefined)

/-- The blocked getter of the blockable task: for a non-empty blockedBy
array it calls blockedBy.anyMatch, which is not an Array method, so the
property read throws a TypeError; for an empty array the short-circuit
yields false. -/
def blockableBlockedGetter (blockedBy : List Task) : Except JsException Bool :=
  if blockedBy.length > 0 then
    Except.error (JsException.typeError "blockedBy.anyMatch is not a function")
  else
    Except.ok false

/-- createSimpleTask (part_000 line 27): the done argument is coerced to
a strict boolean. -/
def createSimpleTask (name : String) (done : Bool) : Task :=
  Task.simple name done

/-- createLinkedTask (part_000 line 66) builds the linked view over the
member array; the source wraps the object in an already resolved
promise, so the task object here is the value that promise settles
with. -/
def createLinkedTask (name : String) (members : List Task) (rule : CompletionRule) :
    Task :=
  Task.linked name members rule

/-- The default completion predicate of createLinkedTask: all members
done. -/
def defaultCompletionRule : CompletionRule := CompletionRule.everyDone

/-- createCompleteAllTask (part_000 line 94): createLinkedTask with the
default predicate. -/
def createCompleteAllTask (name : String) (completedBy : List Task) : Task :=
  createLinkedTask name completedBy defaultCompletionRule

/-- createCompleteAnyTask (part_000 line 105): createLinkedTask with the
some member done predicate. -/
def createCompleteAnyTask (name : String) (completedBy : List Task) : Task :=
  createLinkedTask name completedBy CompletionRule.someDone

/-- createCompleteAllStepsBlockingTask (part_000 line 118): the blockable
linked view over the two member arrays. -/
def createCompleteAllStepsBlockingTask (name : String) (completedBy blockedBy : List Task) :
    Task :=
  Task.blockable name completedBy blockedBy

/-- The completion predicate of a linked task as a function of the
current members: every member done for the default rule, some member
done for the rule of createCompleteAnyTask. -/
def ruleEval (r : CompletionRule) (ms : List Task) : Bool :=
  match r with
  | CompletionRule.everyDone => ms.all (fun t => triTruthy (Task.doneValue t))
  | CompletionRule.someDone => ms.any (fun t => triTruthy (Task.doneValue t))

theorem tasksAllDone_eq_all (ms : List Task) :
    tasksAllDone ms = ms.all (fun t => triTruthy (Task.doneValue t)) := by
  induction ms with
  | nil => rfl
  | cons t ts ih => simp [tasksAllDone, ih, List.all_cons]

theorem tasksSomeDone_eq_any (ms : List Task) :
    tasksSomeDone ms = ms.any (fun t => triTruthy (Task.doneValue t)) := by
  induction ms with
  | nil => rfl
  | cons t ts ih => simp [tasksSomeDone, ih, List.any_cons]

theorem checkSecret_shape_cases (s : List Char) (h : validPasswordShape s = true) :
    checkSecret s =
      (if !(hasLowerCaseLetter s) then
        Outcome.rejected (JsException.invalidParameter "secret" none (some "Invalid secret")
          (some (JsErrorCause.synError "Missing lower case letter")))
      else if !(hasUpperCaseLetter s) then
        Outcome.rejected (JsException.invalidParameter "secret" none (some "Invalid secret")
          (some (JsErrorCause.synError "Missing upper case letter")))
      else if !(hasDigitChar s) then
        Outcome.rejected (JsException.invalidParameter "secret" none (some "Invalid secret")
          (some (JsErrorCause.synError "Missing digit")))
      else if !(hasPunctuationChar s) then
        Outcome.rejected (JsException.invalidParameter "secret" none (some "Invalid secret")
          (some (JsErrorCause.synError "Missing punctuation character")))
      else Outcome.resolved s) := by
  unfold checkSecret hasLowerCaseLetter hasUpperCaseLetter hasDigitChar hasPunctuationChar
  rw [h, if_pos rfl]

/-! ## The claims -/

/-- C1: the claim states that getAvailableContent checks, in priority
order, AccessForbiddenException for an unknown or expired user, then
AuthenticationRequiredException for an unknown or expired session, then
BadRequestException for a session owner mismatch, then NotFoundException
for a missing content id, and otherwise resolves with the content.  The
code violates the claim: for an unregistered userId (first conjunct, an
empty store) the mis-parenthesised guard reads the expires property of
undefined and the promise rejects with a TypeError instead of an
AccessForbiddenException; for a valid session owned by a different user
(second conjunct) it rejects a plain HttpStatusException with default
status code 500 instead of a BadRequestException. -/
theorem C1_getAvailableContent_untyped_rejections :
    getAvailableContent (ApiState.mk [] [] []) "s1" "u1" "c1" 0 =
      Outcome.rejected (JsException.typeError "Cannot read properties of undefined") ∧
    getAvailableContent
      (ApiState.mk []
        [("u2", UserData.mk "bob" "hash" "salt" "info" none false)]
        [("s1", some (SessionData.mk "u1" "s1" 0 none "hs"))])
      "s1" "u2" "c1" 0 =
      Outcome.rejected (JsException.httpStatus (some "Bad request") 500) := by
  constructor
  · rfl
  · rfl

/-- C2: for every secret matching the password shape predicate but
missing at least one of the classes lower case letter, upper case
letter, digit, punctuation, checkSecret rejects with an
InvalidParameterException whose SyntaxError cause names exactly the
first missing class in the order lower, upper, digit, punctuation; the
secret aaaa1111 is reported as missing an upper case letter, not
punctuation; and a shaped secret containing all four classes resolves
with the original string. -/
theorem C2_checkSecret_first_missing_class :
    (∀ s : List Char, validPasswordShape s = true →
      ((hasLowerCaseLetter s && hasUpperCaseLetter s && hasDigitChar s &&
          hasPunctuationChar s) = false →
        checkSecret s = Outcome.rejected (JsException.invalidParameter "secret" none
          (some "Invalid secret")
          (some (JsErrorCause.synError (firstMissingClassMessage s))))) ∧
      ((hasLowerCaseLetter s && hasUpperCaseLetter s && hasDigitChar s &&
          hasPunctuationChar s) = true →
        checkSecret s = Outcome.resolved s)) ∧
    firstMissingClassMessage ("aaaa1111".toList) = "Missing upper case letter" ∧
    checkSecret ("aaaa1111".toList) = Outcome.rejected (JsException.invalidParameter
      "secret" none (some "Invalid secret")
      (some (JsErrorCause.synError "Missing upper case letter"))) := by
  refine ⟨fun s hshape => ⟨fun hmiss => ?_, fun hall => ?_⟩, by decide, by decide⟩
  · rw [checkSecret_shape_cases s hshape]
    cases hl : hasLowerCaseLetter s <;> cases hu : hasUpperCaseLetter s <;>
      cases hd : hasDigitChar s <;> cases hp : hasPunctuationChar s <;>
      simp_all [firstMissingClassMessage]
  · rw [checkSecret_shape_cases s hshape]
    cases hl : hasLowerCaseLetter s <;> cases hu : hasUpperCaseLetter s <;>
      cases hd : hasDigitChar s <;> cases hp : hasPunctuationChar s <;>
      simp_all

/-- Witness for C2 at the concrete secret aaaa1111: its shape passes, a
class is missing, and the theorem yields the rejection naming the upper
case class. -/
theorem C2_checkSecret_first_missing_class_witness :
    checkSecret ("aaaa1111".toList) = Outcome.rejected (JsException.invalidParameter
      "secret" none (some "Invalid secret")
      (some (JsErrorCause.synError (firstMissingClassMessage ("aaaa1111".toList))))) :=
  (C2_checkSecret_first_missing_class.1 ("aaaa1111".toList) (by decide)).1 (by decide)

/-- C3: the claim states that after a successful createUser the call
validPassword(userName, secret) resolves with the stored user info, and
that validPassword rejects NotFoundException for an unknown name and
AccessForbiddenException for a wrong secret.  The code violates the
claim on every input: the first statement of validPassword calls the
find method of the plain object holding the users, which does not exist,
so the method throws a TypeError synchronously in every state, including
any state produced by createUser; the NotFoundException and
AccessForbiddenException branches are unreachable. -/
theorem C3_validPassword_always_throws :
    (∀ (st : ApiState) (user secret : String),
      validPassword st user secret =
        CallResult.thrown (JsException.typeError "this.users.find is not a function")) ∧
    validPassword
      (ApiState.mk [] [("u1", UserData.mk "alice" "hash" "salt" "info" none false)] [])
      "alice" "aFf3cted!" =
      CallResult.thrown (JsException.typeError "this.users.find is not a function") := by
  exact ⟨fun st user secret => rfl, rfl⟩

/-- C4: the claim states that updateSession refreshes the expiry of a
live session to now plus the timeout, rejects
AuthenticationRequiredException for an expired session,
NotFoundException for an unknown session and BadRequestException for a
wrong owner.  The code violates the claim on every input: the body
invokes the Promise constructor without the new keyword, which throws a
TypeError synchronously before the session map is read or written, so
none of the claimed behaviours is reachable. -/
theorem C4_updateSession_always_throws :
    ∀ (st : ApiState) (sessionId userId : String) (detail : Option String) (now : Int),
      updateSession st sessionId userId detail now =
        (st, CallResult.thrown
          (JsException.typeError "Promise constructor cannot be invoked without new")) :=
  fun st sessionId userId detail now => rfl

/-- C5: the claim states that closeSession on an existing session sets
its expiry to the close time, that a second close is a no-op without
error, that a close time in the future rejects
InvalidParameterException, and an unknown id rejects NotFoundException.
The code violates the claim: with the default close time (first
conjunct, a state holding the live session s1) the method calls
this.checkSessionId, a method that exists nowhere in the class, so the
first close already rejects with a TypeError and leaves the state
unchanged; only the future close time conjunct behaves as claimed. -/
theorem C5_closeSession_rejects_typeError :
    closeSession
      (ApiState.mk [] [] [("s1", some (SessionData.mk "u1" "s1" 0 (some 1000) "hs"))])
      "s1" none 100 =
      ((ApiState.mk [] [] [("s1", some (SessionData.mk "u1" "s1" 0 (some 1000) "hs"))]),
        Outcome.rejected (JsException.typeError "this.checkSessionId is not a function")) ∧
    closeSession
      (ApiState.mk [] [] [("s1", some (SessionData.mk "u1" "s1" 0 (some 1000) "hs"))])
      "s1" (some 200) 100 =
      ((ApiState.mk [] [] [("s1", some (SessionData.mk "u1" "s1" 0 (some 1000) "hs"))]),
        Outcome.rejected (JsException.invalidParameter "closeTime" (some 200)
          (some "Close time in future") none)) := by
  exact ⟨rfl, rfl⟩

/-- C6: the claim states that every core operation delivers domain
failures only through the rejection channel of its promise, always as
one of the typed exception kinds, and never throws synchronously.  The
code violates the claim: updateSession throws a TypeError synchronously
on every input because it invokes the Promise constructor without new,
validPassword throws a TypeError synchronously on every input because
the plain users object has no find method, and getAvailableContent
rejects a native TypeError, not a typed exception, for an unregistered
user. -/
theorem C6_operations_throw_synchronously :
    (∀ (st : ApiState) (sessionId userId : String) (detail : Option String) (now : Int),
      (updateSession st sessionId userId detail now).2 =
        CallResult.thrown
          (JsException.typeError "Promise constructor cannot be invoked without new")) ∧
    (∀ (st : ApiState) (user secret : String),
      validPassword st user secret =
        CallResult.thrown (JsException.typeError "this.users.find is not a function")) ∧
    getAvailableContent (ApiState.mk [] [] []) "s1" "u1" "c1" 0 =
      Outcome.rejected (JsException.typeError "Cannot read properties of undefined") := by
  exact ⟨fun st sessionId userId detail now => rfl, fun st user secret => rfl, rfl⟩

/-- C7: the claim states that every identifier-allocating operation
re-draws a fresh random identifier while the candidate collides with the
current live key set before committing.  The code violates the claim for
session ids, session secrets and content ids: the _createId method
declares no parameter, so the identifier idCollection in its body is
unbound, the try block catches the ReferenceError and the promise
rejects with it on every call, for every reserved identifier list; hence
createContentId rejects in every state and no session or content
identifier is ever committed through these paths. -/
theorem C7_createId_always_rejects :
    (∀ ids : List String,
      _createId ids =
        Outcome.rejected (JsException.referenceError "idCollection is not defined")) ∧
    (∀ st : ApiState,
      createContentId st =
        Outcome.rejected (JsException.referenceError "idCollection is not defined")) := by
  exact ⟨fun ids => rfl, fun st => rfl⟩

/-- C8: the claim states that for a blockable task with empty blockedBy,
one done member and one not done member of completedBy, the done getter
yields undefined and the partial getter true, and that whenever a
blockedBy member is done the done getter yields false.  The first part
holds (first two conjuncts).  The code violates the second part: the
done getter tests this.prohibited, a property the object does not define
(its getter is named blocked), so the blocking set is never consulted
and the task of the third conjunct, whose blockedBy member C is done,
still yields undefined rather than false; reading the blocked getter
itself throws a TypeError because anyMatch is not an Array method
(fourth conjunct). -/
theorem C8_blockedBy_not_consulted :
    Task.doneValue (createCompleteAllStepsBlockingTask "z"
      [createSimpleTask "A" true, createSimpleTask "B" false] []) =
      TriState.jsUndefined ∧
    Task.partialValue (createCompleteAllStepsBlockingTask "z"
      [createSimpleTask "A" true, createSimpleTask "B" false] []) = some true ∧
    Task.doneValue (createCompleteAllStepsBlockingTask "z"
      [createSimpleTask "A" true, createSimpleTask "B" false]
      [createSimpleTask "C" true]) = TriState.jsUndefined ∧
    blockableBlockedGetter [createSimpleTask "C" true] =
      Except.error (JsException.typeError "blockedBy.anyMatch is not a function") := by
  refine ⟨rfl, rfl, rfl, rfl⟩

/-- C9: for leaf tasks A done and B not done, the composite of
createCompleteAllTask has done false and partial true, and the composite
of createCompleteAnyTask has done true; in general the done getter of a
createLinkedTask composite is the configured completion predicate
applied to the current members, defaulting to every member done, and the
partial getter is true exactly when some member is done and the
composite itself is not. -/
theorem C9_linked_task_done_derivation :
    Task.doneValue (createCompleteAllTask "x"
      [createSimpleTask "A" true, createSimpleTask "B" false]) = TriState.jsFalse ∧
    Task.partialValue (createCompleteAllTask "x"
      [createSimpleTask "A" true, createSimpleTask "B" false]) = some true ∧
    Task.doneValue (createCompleteAnyTask "y"
      [createSimpleTask "A" true, createSimpleTask "B" false]) = TriState.jsTrue ∧
    (∀ (name : String) (ms : List Task) (r : CompletionRule),
      Task.doneValue (createLinkedTask name ms r) = triOfBool (ruleEval r ms) ∧
      Task.partialValue (createLinkedTask name ms r) =
        some ((ms.any fun t => triTruthy (Task.doneValue t)) &&
          !(triTruthy (Task.doneValue (createLinkedTask name ms r))))) ∧
    (∀ (name : String) (ms : List Task),
      createCompleteAllTask name ms = createLinkedTask name ms defaultCompletionRule ∧
      defaultCompletionRule = CompletionRule.everyDone ∧
      Task.doneValue (createCompleteAllTask name ms) =
        triOfBool (ms.all fun t => triTruthy (Task.doneValue t))) := by
  refine ⟨rfl, rfl, rfl, fun name ms r => ⟨?_, ?_⟩, fun name ms => ⟨rfl, rfl, ?_⟩⟩
  · cases r <;>
      simp [createLinkedTask, Task.doneValue, ruleEval, tasksAllDone_eq_all,
        tasksSomeDone_eq_any]
  · simp [createLinkedTask, Task.partialValue, tasksSomeDone_eq_any]
  · simp [createCompleteAllTask, createLinkedTask, defaultCompletionRule,
      Task.doneValue, ruleEval, tasksAllDone_eq_all]

/-- C10: the claim states that after any operation settles every key of
the session map holds a non-null session record, and in particular that
createSession never leaves its null pre-reservation behind.  The code
violates the claim: for a registered user, createSession stores null
under the string coercion of the promise returned by _createId and then
throws a ReferenceError on the assignment to the undeclared identifier
secret, so the promise rejects and the null reservation stays in the
session map. -/
theorem C10_createSession_null_reservation :
    createSession
      (ApiState.mk [] [("u1", UserData.mk "alice" "hash" "salt" "info" none false)] [])
      "u1" 0 =
      (ApiState.mk [] [("u1", UserData.mk "alice" "hash" "salt" "info" none false)]
        [("[object Promise]", none)],
        Outcome.rejected (JsException.referenceError "secret is not defined")) ∧
    recLookup
      (createSession
        (ApiState.mk [] [("u1", UserData.mk "alice" "hash" "salt" "info" none false)] [])
        "u1" 0).1.sessions "[object Promise]" = some none := by
  exact ⟨rfl, rfl⟩

end TodoSpec
